import Mathlib

/-!
# `src/c/consts.c`: the exported platform constants

The translation unit consists of three include lines and five definitions

    const uint64_t tiocgwinsz = TIOCGWINSZ;
    const int32_t  o_evtonly  = O_EVTONLY;
    const int32_t  o_nonblock = O_NONBLOCK;
    const int32_t  sigint     = SIGINT;
    const int32_t  sigterm    = SIGTERM;

The right-hand sides are identifiers that the platform headers
(`sys/ioctl.h`, `fcntl.h`, `sys/signal.h`) define.  Those headers are not part
of the repository, so their values are a parameter of the embedding.
-/

namespace Consts

/-! ## Platform headers -/

/-- The identifiers that `consts.c` takes from the platform headers. -/
inductive HeaderSym
  | TIOCGWINSZ
  | O_EVTONLY
  | O_NONBLOCK
  | SIGINT
  | SIGTERM
  deriving DecidableEq, Repr

/-- The two object types used by `consts.c`. -/
inductive CType
  | uint64_t
  | int32_t
  deriving DecidableEq, Repr

/-- What the three included headers of a platform provide: every identifier is
either bound to an integer value or not defined at all, and each of the two
type names is declared or not.  `consts.c` has no `#include <stdint.h>`, so
the type names too have to come from the three headers. -/
structure HeaderEnv where
  value : HeaderSym → Option Int
  declares : CType → Bool

/-- Header values of a platform on which `consts.c` builds: all five
identifiers are defined and both type names are declared.  The values are
mathematical integers: the C type a header gives to its constant is not fixed
by `consts.c`. -/
structure Headers where
  TIOCGWINSZ : Int
  O_EVTONLY : Int
  O_NONBLOCK : Int
  SIGINT : Int
  SIGTERM : Int
  deriving DecidableEq, Repr

/-- Value a platform binds to a header identifier. -/
def Headers.value (p : Headers) : HeaderSym → Int
  | .TIOCGWINSZ => p.TIOCGWINSZ
  | .O_EVTONLY => p.O_EVTONLY
  | .O_NONBLOCK => p.O_NONBLOCK
  | .SIGINT => p.SIGINT
  | .SIGTERM => p.SIGTERM

/-- Header environment of a platform on which `consts.c` builds. -/
def Headers.env (p : Headers) : HeaderEnv :=
  { value := fun s => some (p.value s), declares := fun _ => true }

/-- Initialising a `uint64_t` object: the value is reduced modulo `2^64`. -/
def toUint64 (v : Int) : Nat := (v % 2 ^ 64).toNat

/-- Initialising an `int32_t` object: the value is wrapped into
`[-2^31, 2^31)` (two's complement, as clang and gcc do). -/
def toInt32 (v : Int) : Int := (v + 2 ^ 31) % 2 ^ 32 - 2 ^ 31

/-! ## The five definitions of `consts.c` -/

/-- `const uint64_t tiocgwinsz = TIOCGWINSZ;` -/
def tiocgwinsz (p : Headers) : Nat := toUint64 p.TIOCGWINSZ

/-- `const int32_t o_evtonly = O_EVTONLY;` -/
def o_evtonly (p : Headers) : Int := toInt32 p.O_EVTONLY

/-- `const int32_t o_nonblock = O_NONBLOCK;` -/
def o_nonblock (p : Headers) : Int := toInt32 p.O_NONBLOCK

/-- `const int32_t sigint = SIGINT;` -/
def sigint (p : Headers) : Int := toInt32 p.SIGINT

/-- `const int32_t sigterm = SIGTERM;` -/
def sigterm (p : Headers) : Int := toInt32 p.SIGTERM

/-- Header values of Darwin/macOS, the platform family that defines
`O_EVTONLY` (`sys/ttycom.h`, `sys/fcntl.h`, `sys/signal.h`):
`TIOCGWINSZ = _IOR('t', 104, struct winsize) = 0x40087468`,
`O_EVTONLY = 0x8000`, `O_NONBLOCK = 0x4`, `SIGINT = 2`, `SIGTERM = 15`. -/
def darwin : Headers :=
  { TIOCGWINSZ := 0x40087468, O_EVTONLY := 0x8000, O_NONBLOCK := 0x4, SIGINT := 2, SIGTERM := 15 }

/-- Header values fit the types `consts.c` declares for them.  A target
platform meets this: its headers give open flags and signal numbers the type
`int` of the calls they are passed to (32 bits wherever `O_EVTONLY` exists),
and an ioctl request code is a non-negative `unsigned long`. -/
def Headers.Representable (p : Headers) : Prop :=
  (0 ≤ p.TIOCGWINSZ ∧ p.TIOCGWINSZ < 2 ^ 64) ∧
  (-2 ^ 31 ≤ p.O_EVTONLY ∧ p.O_EVTONLY < 2 ^ 31) ∧
  (-2 ^ 31 ≤ p.O_NONBLOCK ∧ p.O_NONBLOCK < 2 ^ 31) ∧
  (-2 ^ 31 ≤ p.SIGINT ∧ p.SIGINT < 2 ^ 31) ∧
  (-2 ^ 31 ≤ p.SIGTERM ∧ p.SIGTERM < 2 ^ 31)

instance (p : Headers) : Decidable p.Representable := by
  unfold Headers.Representable; infer_instance

end Consts

namespace Consts

/-! ## The translation unit as syntax

Claims about what the file contains (no literal initialiser, no function, no
statement) are claims about its text, so the text is kept as data as well and
its meaning is computed from that data. -/

/-- Conversion of an initialiser value to the declared type of the object. -/
def CType.convert : CType → Int → Int
  | .uint64_t, v => (toUint64 v : Int)
  | .int32_t, v => toInt32 v

/-- Initialiser expressions of a file-scope object. -/
inductive Expr
  | lit (v : Int)
  | ident (s : HeaderSym)
  | read (object : String)
  deriving DecidableEq, Repr

/-- Kinds of statement; statements occur in function bodies only. -/
inductive Stmt
  | expr
  | branch
  | loop
  | errorReturn
  deriving DecidableEq, Repr

/-- Top-level items of a translation unit. -/
inductive TopLevel
  | incl (header : String)
  | object (isConst : Bool) (type : CType) (name : String) (init : Expr)
  | function (name : String) (params : List String) (body : List Stmt)
  deriving DecidableEq, Repr

/-- The file `src/c/consts.c`, line by line (blank lines left out). -/
def consts_c : List TopLevel :=
  [ .incl "sys/ioctl.h",
    .incl "fcntl.h",
    .incl "sys/signal.h",
    .object true .uint64_t "tiocgwinsz" (.ident .TIOCGWINSZ),
    .object true .int32_t "o_evtonly" (.ident .O_EVTONLY),
    .object true .int32_t "o_nonblock" (.ident .O_NONBLOCK),
    .object true .int32_t "sigint" (.ident .SIGINT),
    .object true .int32_t "sigterm" (.ident .SIGTERM) ]

/-- Value of a constant expression: a literal is itself, a header identifier
is what the platform binds it to (nothing when the platform does not define
it), and the value of another object is not a constant expression. -/
def Expr.eval (env : HeaderEnv) : Expr → Option Int
  | .lit v => some v
  | .ident s => env.value s
  | .read _ => none

/-- An initialiser is a literal, fixed independently of the platform. -/
def Expr.isLiteral : Expr → Bool
  | .lit _ => true
  | _ => false

/-- An initialiser is a single identifier supplied by a platform header. -/
def Expr.isHeaderIdent : Expr → Bool
  | .ident _ => true
  | _ => false

/-- Static storage of the program: the objects and their values. -/
abbrev Memory := String → Option Int

/-- Objects defined by one top-level item, with their initial values; the
item cannot be translated when the name of its type is not declared or its
initialiser has no value. -/
def TopLevel.define (env : HeaderEnv) : TopLevel → Option (List (String × Int))
  | .incl _ => some []
  | .object _ ty name init =>
      if env.declares ty then (init.eval env).map fun v => [(name, ty.convert v)] else none
  | .function _ _ _ => some []

/-- Translation (the build) of a unit on a platform: all object definitions
with their initial values, or failure when some item cannot be translated. -/
def translate (env : HeaderEnv) : List TopLevel → Option (List (String × Int))
  | [] => some []
  | item :: rest =>
      match item.define env, translate env rest with
      | some ds, some es => some (ds ++ es)
      | _, _ => none

/-- Memory image of a list of definitions. -/
def image (defs : List (String × Int)) : Memory := fun x => defs.lookup x

/-- Names of the objects a unit defines with the `const` qualifier. -/
def constObjects : List TopLevel → List String
  | [] => []
  | .object true _ name _ :: rest => name :: constObjects rest
  | _ :: rest => constObjects rest

/-- Functions defined by a unit. -/
def functions : List TopLevel → List String
  | [] => []
  | .function name _ _ :: rest => name :: functions rest
  | _ :: rest => functions rest

/-- All statements of a unit. -/
def statements : List TopLevel → List Stmt
  | [] => []
  | .function _ _ body :: rest => body ++ statements rest
  | _ :: rest => statements rest

/-- All initialiser expressions of a unit. -/
def initialisers : List TopLevel → List Expr
  | [] => []
  | .object _ _ _ init :: rest => init :: initialisers rest
  | _ :: rest => initialisers rest

/-- A store attempted by the rest of the program.  An object defined `const`
is not modifiable, so such a store is rejected and memory stays as it is. -/
def store (tu : List TopLevel) (m : Memory) (w : String × Int) : Memory :=
  if w.1 ∈ constObjects tu then m else fun x => if x = w.1 then some w.2 else m x

/-- Memory after a sequence of attempted stores. -/
def run (tu : List TopLevel) (m : Memory) (ws : List (String × Int)) : Memory :=
  ws.foldl (store tu) m

/-- The five exported constants of a platform, each as a mathematical integer. -/
def exports (p : Headers) : List (String × Int) :=
  [ ("tiocgwinsz", (tiocgwinsz p : Int)),
    ("o_evtonly", o_evtonly p),
    ("o_nonblock", o_nonblock p),
    ("sigint", sigint p),
    ("sigterm", sigterm p) ]

end Consts

namespace Consts

/-! ## Components that consume the constants

`consts.c` is the only file of the repository at hand; the components below
are described by the specification only and are modelled from its text. -/

/-- Modelled from the spec: the error taxonomy of section 7; the repository
source defines no error type. -/
inductive Error
  | UnsupportedPlatform
  | OpenError
  | ConfigurationError
  | IoError
  | NotATerminal
  | RestoreError
  deriving DecidableEq, Repr

/-! ### SignalBridge (section 4.4) -/

/-- Modelled from the spec: the signal kinds of section 3; absent from the
source. -/
inductive SignalKind
  | Interrupt
  | Terminate
  | WindowChanged
  deriving DecidableEq, Repr

/-- Modelled from the spec: SignalEvent of section 3, a value tagged with its
kind; absent from the source. -/
structure SignalEvent where
  kind : SignalKind
  deriving DecidableEq, Repr

/-- Modelled from the spec: the states of the per-kind machine of section 4.4,
`Unregistered → Armed → Delivered(pending) → Armed → Unregistered`; absent from
the source. -/
inductive BridgeState
  | Unregistered
  | Armed
  | Delivered
  deriving DecidableEq, Repr

/-- Modelled from the spec: SignalBridge of section 4.4 (absent from the
source): one state per signal kind and the outward queue of published events,
oldest first. -/
structure SignalBridge where
  state : SignalKind → BridgeState
  queue : List SignalEvent

/-- Modelled from the spec: the bridge before anything is armed (section 4.4,
absent from the source). -/
def SignalBridge.initial : SignalBridge := { state := fun _ => .Unregistered, queue := [] }

/-- Replaces the state of one kind. -/
def SignalBridge.setState (b : SignalBridge) (k : SignalKind) (s : BridgeState) : SignalBridge :=
  { b with state := fun j => if j = k then s else b.state j }

/-- Modelled from the spec: `arm(kind)` of section 4.4 (absent from the source):
installs the handler, taking an unregistered kind to `Armed`. -/
def SignalBridge.arm (b : SignalBridge) (k : SignalKind) : SignalBridge :=
  match b.state k with
  | .Unregistered => b.setState k .Armed
  | _ => b

/-- Modelled from the spec: what the installed handler does when the OS
delivers a signal of kind `k` (section 4.4, absent from the source): it only
sets the pending flag.  A flag that is already set stays set, and no handler
runs for a kind that is not registered. -/
def SignalBridge.deliver (b : SignalBridge) (k : SignalKind) : SignalBridge :=
  match b.state k with
  | .Armed => b.setState k .Delivered
  | _ => b

/-- Modelled from the spec: `n` deliveries of the same signal in a row. -/
def SignalBridge.deliverMany (b : SignalBridge) (k : SignalKind) : Nat → SignalBridge
  | 0 => b
  | n + 1 => (b.deliver k).deliverMany k n

/-- Modelled from the spec: the events a poller drain will publish (section
4.4, absent from the source), one for every kind whose flag is pending. -/
def SignalBridge.pending (b : SignalBridge) : List SignalEvent :=
  ([SignalKind.Interrupt, .Terminate, .WindowChanged].filter
    fun k => b.state k = .Delivered).map SignalEvent.mk

/-- Modelled from the spec: one drain of the normal-context poller (section
4.4, absent from the source): every pending flag is cleared, its kind goes back
to `Armed`, and its event is published into the outward queue. -/
def SignalBridge.drain (b : SignalBridge) : SignalBridge :=
  { state := fun k => if b.state k = .Delivered then .Armed else b.state k,
    queue := b.queue ++ b.pending }

/-- Modelled from the spec: `disarm(kind)` of section 4.4 (absent from the
source): the kind returns to `Unregistered`; when the OS call that restores the
prior disposition fails, `RestoreError` is reported beside the new state. -/
def SignalBridge.disarm (osOk : Bool) (b : SignalBridge) (k : SignalKind) :
    SignalBridge × Option Error :=
  (b.setState k .Unregistered, if osOk then none else some .RestoreError)

/-! ### NonBlockingHandle (section 4.2) -/

/-- Modelled from the spec: FileDescriptorHandle of section 3 (absent from the
source): the descriptor it owns and the blocking-mode flag it tracks. -/
structure FileDescriptorHandle where
  fd : Int
  nonBlocking : Bool
  deriving DecidableEq, Repr

/-- Modelled from the spec: `setNonBlocking(bool)` of section 4.2 (absent from
the source).  `sys fd mode` tells whether the underlying OS call that switches
descriptor `fd` to `mode` succeeds.  A handle already in the requested mode is
left alone (section 8: a no-op that returns success); otherwise the OS call is
made and its failure is reported as `ConfigurationError`. -/
def FileDescriptorHandle.setNonBlocking (sys : Int → Bool → Bool)
    (h : FileDescriptorHandle) (mode : Bool) : Except Error FileDescriptorHandle :=
  if h.nonBlocking = mode then .ok h
  else if sys h.fd mode then .ok { h with nonBlocking := mode }
  else .error .ConfigurationError

/-- State of the handle after a call: the new state on success, the old one
when the call failed. -/
def FileDescriptorHandle.after (h : FileDescriptorHandle) :
    Except Error FileDescriptorHandle → FileDescriptorHandle
  | .ok h1 => h1
  | .error _ => h

/-! ### TerminalSizeMonitor (section 4.3) -/

/-- Modelled from the spec: Dimensions of section 3; absent from the source. -/
structure Dimensions where
  rows : Nat
  columns : Nat
  deriving DecidableEq, Repr

/-- Modelled from the spec: what an open descriptor refers to, a terminal
device with its current size or anything else (file, pipe, socket). -/
inductive Device
  | terminal (size : Dimensions)
  | other
  deriving DecidableEq, Repr

/-- Modelled from the spec: the descriptors of the process; a descriptor that
is not open refers to nothing. -/
abbrev Descriptors := Int → Option Device

/-- A descriptor refers to a terminal device. -/
def Descriptors.isTerminal (t : Descriptors) (fd : Int) : Bool :=
  match t fd with
  | some (.terminal _) => true
  | _ => false

/-- Modelled from the spec: the window-size ioctl of the OS, which answers
with the size for a terminal device and fails for everything else. -/
def Descriptors.ioctlWinsize (t : Descriptors) (fd : Int) : Option Dimensions :=
  match t fd with
  | some (.terminal d) => some d
  | _ => none

/-- Modelled from the spec: `currentSize()` of section 4.3 (absent from the
source): a synchronous ioctl query whose failure is reported as
`NotATerminal`. -/
def currentSize (t : Descriptors) (fd : Int) : Except Error Dimensions :=
  match t.ioctlWinsize fd with
  | some d => .ok d
  | none => .error .NotATerminal

/-- A descriptor table for examples: descriptor 0 is an 80x24 terminal,
descriptor 1 a detached terminal reporting 0x0, descriptor 3 a pipe. -/
def sampleDescriptors : Descriptors := fun fd =>
  if fd = 0 then some (.terminal ⟨24, 80⟩)
  else if fd = 1 then some (.terminal ⟨0, 0⟩)
  else if fd = 3 then some .other
  else none

end Consts

namespace Consts

/-! ## Conversion lemmas -/

theorem toUint64_cast_of_range (v : Int) (h0 : 0 ≤ v) (h1 : v < 2 ^ 64) :
    (toUint64 v : Int) = v := by
  unfold toUint64
  rw [Int.emod_eq_of_lt h0 h1]
  exact Int.toNat_of_nonneg h0

theorem toInt32_of_range (v : Int) (h0 : -2 ^ 31 ≤ v) (h1 : v < 2 ^ 31) :
    toInt32 v = v := by
  unfold toInt32
  rw [Int.emod_eq_of_lt (by omega) (by omega)]
  omega

theorem toUint64_lt (v : Int) : toUint64 v < 2 ^ 64 := by
  unfold toUint64
  have h1 := Int.emod_nonneg v (show (2 ^ 64 : Int) ≠ 0 by norm_num)
  have h2 := Int.emod_lt_of_pos v (show (0 : Int) < 2 ^ 64 by norm_num)
  omega

/-! ## The exported values against the header values -/

/-- C1: on every target platform (its header values are of the C types of the
calls they are passed to, so they fit the declared types) the five exported
constants equal the header values of `TIOCGWINSZ`, `O_EVTONLY`, `O_NONBLOCK`,
`SIGINT` and `SIGTERM`; two target platforms export values that differ exactly
as their header values do, each export is what the translation of `consts.c`
yields from the header value, and no initialiser of the file is a literal. -/
theorem exports_equal_headers (p q : Headers) (hp : p.Representable) (hq : q.Representable) :
    ((tiocgwinsz p : Int) = p.TIOCGWINSZ ∧ o_evtonly p = p.O_EVTONLY ∧
      o_nonblock p = p.O_NONBLOCK ∧ sigint p = p.SIGINT ∧ sigterm p = p.SIGTERM) ∧
    ((tiocgwinsz p : Int) - tiocgwinsz q = p.TIOCGWINSZ - q.TIOCGWINSZ ∧
      o_evtonly p - o_evtonly q = p.O_EVTONLY - q.O_EVTONLY ∧
      o_nonblock p - o_nonblock q = p.O_NONBLOCK - q.O_NONBLOCK ∧
      sigint p - sigint q = p.SIGINT - q.SIGINT ∧
      sigterm p - sigterm q = p.SIGTERM - q.SIGTERM) ∧
    ((tiocgwinsz p = tiocgwinsz q ↔ p.TIOCGWINSZ = q.TIOCGWINSZ) ∧
      (o_evtonly p = o_evtonly q ↔ p.O_EVTONLY = q.O_EVTONLY) ∧
      (o_nonblock p = o_nonblock q ↔ p.O_NONBLOCK = q.O_NONBLOCK) ∧
      (sigint p = sigint q ↔ p.SIGINT = q.SIGINT) ∧
      (sigterm p = sigterm q ↔ p.SIGTERM = q.SIGTERM)) ∧
    translate p.env consts_c = some (exports p) ∧
    (initialisers consts_c).all (fun e => !e.isLiteral) = true := by
  obtain ⟨⟨pt0, pt1⟩, ⟨pe0, pe1⟩, ⟨pn0, pn1⟩, ⟨pi0, pi1⟩, ⟨pm0, pm1⟩⟩ := hp
  obtain ⟨⟨qt0, qt1⟩, ⟨qe0, qe1⟩, ⟨qn0, qn1⟩, ⟨qi0, qi1⟩, ⟨qm0, qm1⟩⟩ := hq
  have ht := toUint64_cast_of_range p.TIOCGWINSZ pt0 pt1
  have he := toInt32_of_range p.O_EVTONLY pe0 pe1
  have hn := toInt32_of_range p.O_NONBLOCK pn0 pn1
  have hi := toInt32_of_range p.SIGINT pi0 pi1
  have hm := toInt32_of_range p.SIGTERM pm0 pm1
  have ht2 := toUint64_cast_of_range q.TIOCGWINSZ qt0 qt1
  have he2 := toInt32_of_range q.O_EVTONLY qe0 qe1
  have hn2 := toInt32_of_range q.O_NONBLOCK qn0 qn1
  have hi2 := toInt32_of_range q.SIGINT qi0 qi1
  have hm2 := toInt32_of_range q.SIGTERM qm0 qm1
  simp only [tiocgwinsz, o_evtonly, o_nonblock, sigint, sigterm] at *
  refine ⟨⟨ht, he, hn, hi, hm⟩, ?_, ⟨?_, ?_, ?_, ?_, ?_⟩, rfl, by decide⟩
  · rw [ht, he, hn, hi, hm, ht2, he2, hn2, hi2, hm2]
    exact ⟨rfl, rfl, rfl, rfl, rfl⟩
  · constructor
    · intro h
      have h2 : (toUint64 p.TIOCGWINSZ : Int) = (toUint64 q.TIOCGWINSZ : Int) := by rw [h]
      rw [ht, ht2] at h2
      exact h2
    · intro h
      rw [h]
  · rw [he, he2]
  · rw [hn, hn2]
  · rw [hi, hi2]
  · rw [hm, hm2]

/-- Witness for C1: Darwin against a platform that has Darwin's values
except for the Linux value `0x800` of `O_NONBLOCK`. -/
theorem exports_equal_headers_witness :
    darwin.Representable ∧ ({ darwin with O_NONBLOCK := 0x800 } : Headers).Representable ∧
    o_nonblock darwin - o_nonblock { darwin with O_NONBLOCK := 0x800 } = 0x4 - 0x800 :=
  ⟨by decide, by decide,
    (exports_equal_headers darwin { darwin with O_NONBLOCK := 0x800 }
      (by decide) (by decide)).2.1.2.2.1⟩

/-- C7: when `TIOCGWINSZ` lies in `[0, 2^64)` and the four other header values
lie in `[-2^31, 2^31)`, every exported constant equals its header value, with
no wrap-around and no sign change; Darwin is such a platform and its exports
are `0x40087468`, `0x8000`, `0x4`, `2` and `15`. -/
theorem exports_lossless (p : Headers)
    (hT : 0 ≤ p.TIOCGWINSZ ∧ p.TIOCGWINSZ < 2 ^ 64)
    (hE : -2 ^ 31 ≤ p.O_EVTONLY ∧ p.O_EVTONLY < 2 ^ 31)
    (hN : -2 ^ 31 ≤ p.O_NONBLOCK ∧ p.O_NONBLOCK < 2 ^ 31)
    (hI : -2 ^ 31 ≤ p.SIGINT ∧ p.SIGINT < 2 ^ 31)
    (hM : -2 ^ 31 ≤ p.SIGTERM ∧ p.SIGTERM < 2 ^ 31) :
    ((tiocgwinsz p : Int) = p.TIOCGWINSZ ∧ o_evtonly p = p.O_EVTONLY ∧
      o_nonblock p = p.O_NONBLOCK ∧ sigint p = p.SIGINT ∧ sigterm p = p.SIGTERM) ∧
    (tiocgwinsz p < 2 ^ 64 ∧ (0 ≤ o_evtonly p ↔ 0 ≤ p.O_EVTONLY) ∧
      (0 ≤ o_nonblock p ↔ 0 ≤ p.O_NONBLOCK) ∧ (0 ≤ sigint p ↔ 0 ≤ p.SIGINT) ∧
      (0 ≤ sigterm p ↔ 0 ≤ p.SIGTERM)) ∧
    (darwin.Representable ∧ tiocgwinsz darwin = 0x40087468 ∧ o_evtonly darwin = 0x8000 ∧
      o_nonblock darwin = 0x4 ∧ sigint darwin = 2 ∧ sigterm darwin = 15) := by
  have he := toInt32_of_range p.O_EVTONLY hE.1 hE.2
  have hn := toInt32_of_range p.O_NONBLOCK hN.1 hN.2
  have hi := toInt32_of_range p.SIGINT hI.1 hI.2
  have hm := toInt32_of_range p.SIGTERM hM.1 hM.2
  refine ⟨⟨toUint64_cast_of_range p.TIOCGWINSZ hT.1 hT.2, he, hn, hi, hm⟩,
    ⟨toUint64_lt p.TIOCGWINSZ, ?_, ?_, ?_, ?_⟩, by decide⟩
  · unfold o_evtonly; rw [he]
  · unfold o_nonblock; rw [hn]
  · unfold sigint; rw [hi]
  · unfold sigterm; rw [hm]

/-- Witness for C7 at Darwin. -/
theorem exports_lossless_witness :
    (tiocgwinsz darwin : Int) = 0x40087468 ∧ o_evtonly darwin = 0x8000 ∧
    o_nonblock darwin = 0x4 ∧ sigint darwin = 2 ∧ sigterm darwin = 15 :=
  (exports_lossless darwin (by decide) (by decide) (by decide) (by decide) (by decide)).1

end Consts

namespace Consts

/-! ## Purity of the exports -/

theorem store_const (tu : List TopLevel) (m : Memory) (w : String × Int) (x : String)
    (hx : x ∈ constObjects tu) : store tu m w x = m x := by
  unfold store
  by_cases hw : w.1 ∈ constObjects tu
  · simp [hw]
  · have hne : x ≠ w.1 := fun h => hw (h ▸ hx)
    simp [hw, hne]

theorem run_const (tu : List TopLevel) (ws : List (String × Int)) (m : Memory) (x : String)
    (hx : x ∈ constObjects tu) : run tu m ws x = m x := by
  induction ws generalizing m with
  | nil => rfl
  | cons w ws ih =>
      show run tu (store tu m w) ws x = m x
      rw [ih (store tu m w), store_const tu m w x hx]

/-- C3: the exports are pure constants.  On every platform that defines the
five identifiers the translation of `consts.c` yields exactly the five objects;
all of them are `const`, so whatever stores the rest of the program attempts,
every later read of `tiocgwinsz`, `o_evtonly`, `o_nonblock`, `sigint` and
`sigterm` yields the value the object was initialised with; each initialiser
is a header identifier (no object is read), and the file defines no function
and so contains no statement: no branch, loop or error path. -/
theorem exports_are_pure_constants (p : Headers) (ws : List (String × Int)) :
    translate p.env consts_c = some (exports p) ∧
    constObjects consts_c = (exports p).map Prod.fst ∧
    (run consts_c (image (exports p)) ws "tiocgwinsz" = some (tiocgwinsz p : Int) ∧
      run consts_c (image (exports p)) ws "o_evtonly" = some (o_evtonly p) ∧
      run consts_c (image (exports p)) ws "o_nonblock" = some (o_nonblock p) ∧
      run consts_c (image (exports p)) ws "sigint" = some (sigint p) ∧
      run consts_c (image (exports p)) ws "sigterm" = some (sigterm p)) ∧
    (initialisers consts_c).all Expr.isHeaderIdent = true ∧
    functions consts_c = [] ∧ statements consts_c = [] := by
  refine ⟨rfl, rfl, ⟨?_, ?_, ?_, ?_, ?_⟩, by decide, rfl, rfl⟩
  · rw [run_const consts_c ws _ _ (by decide)]; simp [image, exports, List.lookup]
  · rw [run_const consts_c ws _ _ (by decide)]; simp [image, exports, List.lookup]
  · rw [run_const consts_c ws _ _ (by decide)]; simp [image, exports, List.lookup]
  · rw [run_const consts_c ws _ _ (by decide)]; simp [image, exports, List.lookup]
  · rw [run_const consts_c ws _ _ (by decide)]; simp [image, exports, List.lookup]

/-! ## Failure to obtain the constants -/

end Consts

namespace Consts

/-! ## The two open flags and the two signal numbers -/

theorem testBit_land_lor_of_disjoint (f a b : Int) (k : Nat) (h : Int.land a b = 0) :
    Int.testBit (Int.land (Int.lor f a) b) k = Int.testBit (Int.land f b) k := by
  have hk : (Int.testBit a k && Int.testBit b k) = false := by
    rw [← Int.testBit_land, h]
    simp [Int.testBit]
  rw [Int.testBit_land, Int.testBit_lor, Int.testBit_land]
  cases hf : Int.testBit f k <;> cases ha : Int.testBit a k <;> cases hb : Int.testBit b k <;>
    simp_all

/-- C8: on Darwin `o_evtonly = 0x8000` and `o_nonblock = 0x4` are both non-zero
and share no set bit, so for every flag word `f` and every bit position `k`,
OR-ing one flag into `f` leaves the part of `f` under the other flag as it
was: the other flag's bit is neither set nor cleared. -/
theorem open_flags_independent (f : Int) (k : Nat) :
    o_evtonly darwin = 0x8000 ∧ o_nonblock darwin = 0x4 ∧
    o_evtonly darwin ≠ 0 ∧ o_nonblock darwin ≠ 0 ∧
    Int.land (o_evtonly darwin) (o_nonblock darwin) = 0 ∧
    Int.testBit (Int.land (Int.lor f (o_nonblock darwin)) (o_evtonly darwin)) k =
      Int.testBit (Int.land f (o_evtonly darwin)) k ∧
    Int.testBit (Int.land (Int.lor f (o_evtonly darwin)) (o_nonblock darwin)) k =
      Int.testBit (Int.land f (o_nonblock darwin)) k ∧
    Int.testBit (Int.lor f (o_nonblock darwin)) 15 = Int.testBit f 15 ∧
    Int.testBit (Int.lor f (o_evtonly darwin)) 2 = Int.testBit f 2 := by
  have hE : o_evtonly darwin = 0x8000 := by decide
  have hN : o_nonblock darwin = 0x4 := by decide
  have h1 : Int.land (0x4 : Int) 0x8000 = 0 := by decide
  have h2 : Int.land (0x8000 : Int) 0x4 = 0 := by decide
  have b1 : Int.testBit (0x4 : Int) 15 = false := by decide
  have b2 : Int.testBit (0x8000 : Int) 2 = false := by decide
  rw [hE, hN]
  refine ⟨rfl, rfl, by decide, by decide, h2, testBit_land_lor_of_disjoint f _ _ k h1,
    testBit_land_lor_of_disjoint f _ _ k h2, ?_, ?_⟩
  · rw [Int.testBit_lor, b1, Bool.or_false]
  · rw [Int.testBit_lor, b2, Bool.or_false]

/-- C9: on a platform whose headers give `SIGINT = 2` and `SIGTERM = 15`
(Darwin/macOS and Linux do), the exported `sigint` and `sigterm` are `2` and
`15`: both positive and different from each other. -/
theorem signal_numbers_distinct (p : Headers) (hi : p.SIGINT = 2) (ht : p.SIGTERM = 15) :
    sigint p = 2 ∧ sigterm p = 15 ∧ 0 < sigint p ∧ 0 < sigterm p ∧ sigint p ≠ sigterm p := by
  have h1 : sigint p = 2 := by unfold sigint; rw [hi]; decide
  have h2 : sigterm p = 15 := by unfold sigterm; rw [ht]; decide
  rw [h1, h2]
  decide

/-- Witness for C9 at Darwin. -/
theorem signal_numbers_distinct_witness :
    darwin.SIGINT = 2 ∧ darwin.SIGTERM = 15 ∧ sigint darwin ≠ sigterm darwin :=
  ⟨rfl, rfl, (signal_numbers_distinct darwin rfl rfl).2.2.2.2⟩

/-! ## SignalBridge: coalescing -/

theorem deliver_of_delivered (b : SignalBridge) (k : SignalKind)
    (h : b.state k = .Delivered) : b.deliver k = b := by
  simp [SignalBridge.deliver, h]

theorem deliverMany_of_delivered (b : SignalBridge) (k : SignalKind) (n : Nat)
    (h : b.state k = .Delivered) : b.deliverMany k n = b := by
  induction n with
  | zero => rfl
  | succ n ih =>
      show (b.deliver k).deliverMany k n = b
      rw [deliver_of_delivered b k h, ih]

theorem deliverMany_of_armed (b : SignalBridge) (k : SignalKind) (n : Nat)
    (h : b.state k = .Armed) : b.deliverMany k (n + 1) = b.setState k .Delivered := by
  show (b.deliver k).deliverMany k n = _
  have hd : b.deliver k = b.setState k .Delivered := by simp [SignalBridge.deliver, h]
  rw [hd]
  exact deliverMany_of_delivered _ k n (by simp [SignalBridge.setState])

theorem pending_count_le_one (b : SignalBridge) (k : SignalKind) :
    b.pending.count ⟨k⟩ ≤ 1 := by
  cases h1 : b.state .Interrupt <;> cases h2 : b.state .Terminate <;>
    cases h3 : b.state .WindowChanged <;> cases k <;>
    simp [SignalBridge.pending, List.filter, h1, h2, h3]

theorem pending_drain (b : SignalBridge) : b.drain.pending = [] := by
  cases h1 : b.state .Interrupt <;> cases h2 : b.state .Terminate <;>
    cases h3 : b.state .WindowChanged <;>
    simp [SignalBridge.pending, SignalBridge.drain, List.filter, h1, h2, h3]

/-- C4: when `n ≥ 2` interrupt signals reach an armed bridge before the poller
drains, the next drain publishes exactly one event of kind Interrupt, appended
to the outward queue, and the kind is `Armed` again with nothing left to
publish; whatever signals are delivered before a drain, the drain publishes at
most one event of each kind. -/
theorem interrupts_coalesce (n : Nat) (hn : 2 ≤ n) (b : SignalBridge)
    (ha : b.state .Interrupt = .Armed) :
    (b.deliverMany .Interrupt n).pending.count ⟨.Interrupt⟩ = 1 ∧
    (b.deliverMany .Interrupt n).drain.queue = b.queue ++ (b.deliverMany .Interrupt n).pending ∧
    (b.deliverMany .Interrupt n).drain.state .Interrupt = .Armed ∧
    (b.deliverMany .Interrupt n).drain.pending = [] ∧
    (∀ (sigs : List SignalKind) (k : SignalKind),
      (sigs.foldl SignalBridge.deliver b).pending.count ⟨k⟩ ≤ 1) := by
  obtain ⟨m, rfl⟩ : ∃ m, n = m + 1 := ⟨n - 1, by omega⟩
  rw [deliverMany_of_armed b .Interrupt m ha]
  refine ⟨?_, rfl, ?_, pending_drain _, fun sigs k => pending_count_le_one _ k⟩
  · cases h2 : b.state .Terminate <;> cases h3 : b.state .WindowChanged <;>
      simp [SignalBridge.pending, SignalBridge.setState, List.filter, h2, h3]
  · simp [SignalBridge.drain, SignalBridge.setState]

/-- Witness for C4: two interrupts on a freshly armed bridge. -/
theorem interrupts_coalesce_witness :
    (2 ≤ 2) ∧ (SignalBridge.initial.arm .Interrupt).state .Interrupt = .Armed ∧
    ((SignalBridge.initial.arm .Interrupt).deliverMany .Interrupt 2).pending.count
      ⟨.Interrupt⟩ = 1 :=
  ⟨by decide, rfl, (interrupts_coalesce 2 (by decide) (SignalBridge.initial.arm .Interrupt) rfl).1⟩

/-! ## NonBlockingHandle: idempotence -/

/-- C5, as stated, fails: on a blocking handle whose underlying OS call fails,
the first `setNonBlocking(true)` fails with `ConfigurationError`, the handle is
left as it was, and the second call fails in the same way instead of returning
success. -/
theorem setNonBlocking_idempotent_counterexample :
    FileDescriptorHandle.setNonBlocking (fun _ _ => false) ⟨3, false⟩ true =
      .error .ConfigurationError ∧
    FileDescriptorHandle.setNonBlocking (fun _ _ => false)
      ((⟨3, false⟩ : FileDescriptorHandle).after
        (FileDescriptorHandle.setNonBlocking (fun _ _ => false) ⟨3, false⟩ true)) true =
      .error .ConfigurationError :=
  ⟨rfl, rfl⟩

/-- C5, amended: for every handle on which the first `setNonBlocking(true)`
succeeds, the second `setNonBlocking(true)` returns success and leaves the
handle exactly as the first call left it, whatever the OS would answer by
then; the handle is then in non-blocking mode on the same descriptor. -/
theorem setNonBlocking_idempotent (sys sys2 : Int → Bool → Bool) (h h1 : FileDescriptorHandle)
    (hfirst : h.setNonBlocking sys true = .ok h1) :
    h1.setNonBlocking sys2 true = .ok h1 ∧ h1.nonBlocking = true ∧ h1.fd = h.fd := by
  have hnb : h1.nonBlocking = true ∧ h1.fd = h.fd := by
    unfold FileDescriptorHandle.setNonBlocking at hfirst
    by_cases hm : h.nonBlocking = true
    · simp [hm] at hfirst
      subst hfirst
      exact ⟨hm, rfl⟩
    · by_cases hs : sys h.fd true = true
      · simp [hm, hs] at hfirst
        subst hfirst
        exact ⟨rfl, rfl⟩
      · simp [hm, hs] at hfirst
  refine ⟨?_, hnb.1, hnb.2⟩
  simp [FileDescriptorHandle.setNonBlocking, hnb.1]

/-- Witness for C5 amended: the OS accepts the first call and would refuse
a second one, which is never made. -/
theorem setNonBlocking_idempotent_witness :
    FileDescriptorHandle.setNonBlocking (fun _ _ => true) ⟨3, false⟩ true = .ok ⟨3, true⟩ ∧
    FileDescriptorHandle.setNonBlocking (fun _ _ => false) ⟨3, true⟩ true = .ok ⟨3, true⟩ :=
  ⟨rfl, (setNonBlocking_idempotent (fun _ _ => true) (fun _ _ => false) ⟨3, false⟩ ⟨3, true⟩
    rfl).1⟩

/-! ## TerminalSizeMonitor: descriptors that are not terminals -/

/-- C6: for every descriptor that is not a terminal device (another kind of
device, or not open at all) `currentSize()` fails with `NotATerminal` and
returns no Dimensions value. -/
theorem currentSize_not_a_terminal (t : Descriptors) (fd : Int)
    (h : t.isTerminal fd = false) :
    currentSize t fd = .error .NotATerminal ∧ ∀ d : Dimensions, currentSize t fd ≠ .ok d := by
  have hq : t.ioctlWinsize fd = none := by
    unfold Descriptors.isTerminal at h
    unfold Descriptors.ioctlWinsize
    cases hfd : t fd with
    | none => rfl
    | some dev =>
        cases dev with
        | terminal size => simp [hfd] at h
        | other => rfl
  have he : currentSize t fd = .error .NotATerminal := by
    simp [currentSize, hq]
  refine ⟨he, fun d hd => ?_⟩
  rw [he] at hd
  exact Except.noConfusion hd

/-- Witness for C6: descriptor 3 is a pipe, descriptor 0 a terminal. -/
theorem currentSize_not_a_terminal_witness :
    sampleDescriptors.isTerminal 3 = false ∧
    currentSize sampleDescriptors 3 = .error .NotATerminal :=
  ⟨by decide, (currentSize_not_a_terminal sampleDescriptors 3 (by decide)).1⟩

end Consts
